import Mathlib

/-!
Verification of the ComfyUI-WarpPipe node collection (`warp_pipe.py`)
against its natural-language specification.

The development shallowly embeds the module's data model and operations:

* Python heterogeneous values (model handles, images, latents, strings,
  ints, ...) become the inductive `PyVal`; `None` becomes `Option.none`
  at the places where the code distinguishes `None` from a value.
* The bundle dictionaries stored in `warp_storage` only ever carry the
  22 field names written by `Warp.warp`, and `Warp.warp` never stores a
  `None` value (it writes a key only when the input is not `None`), so a
  stored dictionary is represented as the record `Bundle` with one
  `Option PyVal` per field, `none` meaning the key is absent.
* The process-wide dictionary `warp_storage` becomes the function type
  `Store`; mutation becomes functional update, so each operation takes
  the store before the call and returns the store after it.
* The lock discipline of `_storage_lock` is transcribed separately as a
  list of storage-access events per operation (see `StorageAccess`).
-/

/-- A Python runtime value as far as this module inspects one: a string,
an int, or an opaque object (model, image, latent, float, ...) identified
by a tag.  The module never looks inside the opaque objects. -/
inductive PyVal where
  | str : String → PyVal
  | int : Int → PyVal
  | obj : Nat → PyVal
deriving DecidableEq, Repr

/-- SAFE_SAMPLERS: the module pulls `comfy.samplers.KSampler.SAMPLERS`
from the host; when the host is absent it falls back to the repository's
own `MockKSampler.SAMPLERS` list (warp_pipe.py lines 26-27, 39-42), which
is the concrete value embedded here. -/
def SAFE_SAMPLERS : List String :=
  ["euler", "euler_ancestral", "heun", "dpm_2", "dpm_2_ancestral", "lms",
   "dpm_fast", "dpm_adaptive", "dpmpp_2s_ancestral", "dpmpp_sde", "dpmpp_2m"]

/-- SAFE_SCHEDULERS: `comfy.samplers.KSampler.SCHEDULERS` from the host,
falling back to the repository's `MockKSampler.SCHEDULERS`
(warp_pipe.py lines 28, 44-47). -/
def SAFE_SCHEDULERS : List String :=
  ["normal", "karras", "exponential", "sgm_uniform", "simple", "ddim_uniform"]

/-- SCHEDULER_ALIASES: compatibility mapping for exotic schedulers
(warp_pipe.py lines 50-59), embedded as an association list; `dict.get`
becomes `List.lookup`. -/
def SCHEDULER_ALIASES : List (String × String) :=
  [("AYS SDXL", "karras"),
   ("AYS SD1", "karras"),
   ("AYS SVD", "karras"),
   ("GITS[coeff=1.2]", "karras"),
   ("LTXV[default]", "karras"),
   ("OSS FLUX", "karras"),
   ("OSS Wan", "karras"),
   ("OSS Chroma", "karras")]

/-- FD_SCHEDULERS: the FaceDetailer-specific scheduler enum set
(warp_pipe.py lines 62-83). -/
def FD_SCHEDULERS : List String :=
  ["simple", "sgm_uniform", "karras", "exponential", "ddim_uniform", "beta",
   "normal", "linear_quadratic", "kl_optimal", "FlowMatchEulerDiscreteScheduler",
   "bong_tangent",
   "AYS SDXL", "AYS SD1", "AYS SVD", "GITS[coeff=1.2]", "LTXV[default]",
   "OSS FLUX", "OSS Wan", "OSS Chroma"]

/-- coerce_scheduler (warp_pipe.py lines 85-97): a name already in
SAFE_SCHEDULERS is returned unchanged, otherwise
`SCHEDULER_ALIASES.get(name, "karras")`. -/
def coerce_scheduler (name : String) : String :=
  if name ∈ SAFE_SCHEDULERS then name
  else (SCHEDULER_ALIASES.lookup name).getD "karras"

/-- coerce_scheduler_fd (warp_pipe.py lines 99-115): a name already in
FD_SCHEDULERS is returned unchanged; otherwise the alias-table entry when
it exists and lands inside FD_SCHEDULERS (in Python a missing entry gives
`alias = None`, and `None in FD_SCHEDULERS` is false); otherwise "karras". -/
def coerce_scheduler_fd (name : String) : String :=
  if name ∈ FD_SCHEDULERS then name
  else
    match SCHEDULER_ALIASES.lookup name with
    | some al => if al ∈ FD_SCHEDULERS then al else "karras"
    | none => "karras"

/-- coerce_sampler (warp_pipe.py lines 117-130): a name already in
SAFE_SAMPLERS is returned unchanged, otherwise the fallback "euler". -/
def coerce_sampler (name : String) : String :=
  if name ∈ SAFE_SAMPLERS then name
  else "euler"

/-- coerce_sampler as applied by `Unwarp.unwarp` to an arbitrary stored
value (warp_pipe.py line 395): a non-string value is never equal (by
Python `==`) to any member of the string list SAFE_SAMPLERS, so the
membership test fails and the "euler" fallback is returned. -/
def coerce_sampler_val (v : PyVal) : String :=
  match v with
  | PyVal.str s => coerce_sampler s
  | _ => "euler"

/-- coerce_scheduler as applied by `Unwarp.unwarp` to an arbitrary stored
value (warp_pipe.py line 396): a non-string value is neither a member of
SAFE_SCHEDULERS nor a key of SCHEDULER_ALIASES, so
`SCHEDULER_ALIASES.get(name, "karras")` yields "karras". -/
def coerce_scheduler_val (v : PyVal) : String :=
  match v with
  | PyVal.str s => coerce_scheduler s
  | _ => "karras"

/-- A bundle dictionary as stored in `warp_storage`.  `Warp.warp` is the
only writer of the store and writes exactly the 22 field names below,
never with value `None` (warp_pipe.py lines 241-268), so a stored dict is
represented as one `Option PyVal` per field, `none` meaning the key is
absent from the dict. -/
structure Bundle where
  image : Option PyVal
  mask : Option PyVal
  model_1 : Option PyVal
  model_2 : Option PyVal
  clip : Option PyVal
  clip_vision : Option PyVal
  vae : Option PyVal
  conditioning_positive : Option PyVal
  conditioning_negative : Option PyVal
  latent : Option PyVal
  prompt_positive : Option PyVal
  prompt_negative : Option PyVal
  batch_size : Option PyVal
  seed : Option PyVal
  steps_1 : Option PyVal
  steps_2 : Option PyVal
  steps_3 : Option PyVal
  cfg : Option PyVal
  sampler_name : Option PyVal
  scheduler : Option PyVal
  width : Option PyVal
  height : Option PyVal
deriving DecidableEq, Repr

/-- The empty dict `{}`: every field absent. -/
def emptyBundle : Bundle :=
  ⟨none, none, none, none, none, none, none, none, none, none, none,
   none, none, none, none, none, none, none, none, none, none, none⟩

/-- Python `not data` on a stored bundle dict: the dict is empty exactly
when every one of the 22 possible keys is absent. -/
def Bundle.isEmpty (b : Bundle) : Bool :=
  b.image.isNone && b.mask.isNone && b.model_1.isNone && b.model_2.isNone &&
  b.clip.isNone && b.clip_vision.isNone && b.vae.isNone &&
  b.conditioning_positive.isNone && b.conditioning_negative.isNone &&
  b.latent.isNone && b.prompt_positive.isNone && b.prompt_negative.isNone &&
  b.batch_size.isNone && b.seed.isNone && b.steps_1.isNone &&
  b.steps_2.isNone && b.steps_3.isNone && b.cfg.isNone &&
  b.sampler_name.isNone && b.scheduler.isNone && b.width.isNone &&
  b.height.isNone

/-- The process-wide `warp_storage` dictionary: opaque identifier to
bundle; `none` means the key is absent. -/
def Store : Type := String → Option Bundle

/-- The store with no entries at all (module start-up state). -/
def emptyStore : Store := fun _ => none

/-- The control handle `{"id": warp_id}` returned by `Warp.warp` and
consumed by `Unwarp.unwarp`. -/
structure Handle where
  id : String
deriving DecidableEq, Repr

/-- The possible shapes of the optional `warp` argument, as the two
nodes distinguish them: absent (`None`), a value that is not a dict, a
dict without an `"id"` key, or a dict carrying `"id": id`. -/
inductive CtrlArg where
  | none : CtrlArg
  | notDict : PyVal → CtrlArg
  | dictNoId : CtrlArg
  | handle : Handle → CtrlArg
deriving DecidableEq, Repr

/-- The 22 optional named inputs of `Warp.warp` (warp_pipe.py lines
200-224); `sampler_name` and `scheduler` are typed `Optional[str]`. -/
structure WarpInputs where
  image : Option PyVal
  mask : Option PyVal
  model_1 : Option PyVal
  model_2 : Option PyVal
  clip : Option PyVal
  clip_vision : Option PyVal
  vae : Option PyVal
  conditioning_positive : Option PyVal
  conditioning_negative : Option PyVal
  latent : Option PyVal
  prompt_positive : Option PyVal
  prompt_negative : Option PyVal
  batch_size : Option PyVal
  seed : Option PyVal
  steps_1 : Option PyVal
  steps_2 : Option PyVal
  steps_3 : Option PyVal
  cfg : Option PyVal
  sampler_name : Option String
  scheduler : Option String
  width : Option PyVal
  height : Option PyVal
deriving DecidableEq, Repr

/-- A call with no inputs supplied (every parameter left at its `None`
default). -/
def noInputs : WarpInputs :=
  ⟨none, none, none, none, none, none, none, none, none, none, none,
   none, none, none, none, none, none, none, none, none, none, none⟩

/-- The `for key, val in updates.items(): if val is not None: data[key] = val`
loop, per key (warp_pipe.py lines 266-268): a non-None update overwrites
the copied field, a None update leaves it alone. -/
def overlay (new old : Option PyVal) : Option PyVal :=
  match new with
  | some v => some v
  | Option.none => old

/-- Warp.warp (warp_pipe.py lines 200-276).  `self_warp_id` is the
instance's `self._warp_id`, fixed at construction (line 185).  The body:
copy the prior bundle when a dict with an `"id"` key was supplied
(`warp_storage.get(prev_id, {}).copy()`, line 229), coerce the sampler
and scheduler inputs when present (lines 238-239), overlay every
non-None input (lines 242-268), store the result under `self._warp_id`
(lines 270-271) and return the handle `{"id": self._warp_id}`
(line 276).  Mutation of `warp_storage` becomes a functional update. -/
def Warp.warp (store : Store) (self_warp_id : String) (warp : CtrlArg)
    (i : WarpInputs) : Store × Handle :=
  let data : Bundle :=
    match warp with
    | CtrlArg.handle h => (store h.id).getD emptyBundle
    | _ => emptyBundle
  let normalized_sampler : Option String := i.sampler_name.map coerce_sampler
  let normalized_scheduler : Option String := i.scheduler.map coerce_scheduler
  let data2 : Bundle :=
    { image := overlay i.image data.image
      mask := overlay i.mask data.mask
      model_1 := overlay i.model_1 data.model_1
      model_2 := overlay i.model_2 data.model_2
      clip := overlay i.clip data.clip
      clip_vision := overlay i.clip_vision data.clip_vision
      vae := overlay i.vae data.vae
      conditioning_positive :=
        overlay i.conditioning_positive data.conditioning_positive
      conditioning_negative :=
        overlay i.conditioning_negative data.conditioning_negative
      latent := overlay i.latent data.latent
      prompt_positive := overlay i.prompt_positive data.prompt_positive
      prompt_negative := overlay i.prompt_negative data.prompt_negative
      batch_size := overlay i.batch_size data.batch_size
      seed := overlay i.seed data.seed
      steps_1 := overlay i.steps_1 data.steps_1
      steps_2 := overlay i.steps_2 data.steps_2
      steps_3 := overlay i.steps_3 data.steps_3
      cfg := overlay i.cfg data.cfg
      sampler_name := overlay (normalized_sampler.map PyVal.str) data.sampler_name
      scheduler := overlay (normalized_scheduler.map PyVal.str) data.scheduler
      width := overlay i.width data.width
      height := overlay i.height data.height }
  (fun k => if k = self_warp_id then some data2 else store k,
   { id := self_warp_id })

/-- Unwarp.RETURN_TYPES entries (warp_pipe.py lines 292-315): either a
named host type or an enumerated list of strings. -/
inductive RetType where
  | named : String → RetType
  | enum : List String → RetType
deriving DecidableEq, Repr

/-- Unwarp.RETURN_TYPES (warp_pipe.py lines 292-315). -/
def Unwarp.RETURN_TYPES : List RetType :=
  [RetType.named "MODEL", RetType.named "MODEL", RetType.named "IMAGE",
   RetType.named "MASK", RetType.named "CLIP", RetType.named "CLIP_VISION",
   RetType.named "VAE", RetType.named "CONDITIONING",
   RetType.named "CONDITIONING", RetType.named "LATENT",
   RetType.named "STRING", RetType.named "STRING", RetType.named "INT",
   RetType.named "INT", RetType.named "INT", RetType.named "INT",
   RetType.named "INT", RetType.named "FLOAT", RetType.enum SAFE_SAMPLERS,
   RetType.enum SAFE_SCHEDULERS, RetType.named "INT", RetType.named "INT"]

/-- Unwarp.RETURN_NAMES (warp_pipe.py lines 316-339). -/
def Unwarp.RETURN_NAMES : List String :=
  ["model_1", "model_2", "image", "mask", "clip", "clip_vision", "vae",
   "conditioning_positive", "conditioning_negative", "latent",
   "prompt_positive", "prompt_negative", "batch_size", "seed", "steps_1",
   "steps_2", "steps_3", "cfg", "sampler_name", "scheduler", "width",
   "height"]

/-- Unwarp._return_empty_values (warp_pipe.py lines 341-343):
`(None,) * len(self.RETURN_TYPES)`. -/
def Unwarp.return_empty_values : List (Option PyVal) :=
  List.replicate Unwarp.RETURN_TYPES.length none

/-- Unwarp.unwarp (warp_pipe.py lines 345-403).  The returned tuple is a
22-element list of `Option PyVal` in RETURN_NAMES order; the sampler and
scheduler outputs are always strings, so they appear as
`some (PyVal.str ...)`.  The function performs no store write, so the
store component of the result is the store it was given. -/
def Unwarp.unwarp (store : Store) (warp : CtrlArg) :
    Store × List (Option PyVal) :=
  match warp with
  | CtrlArg.none => (store, Unwarp.return_empty_values)
  | CtrlArg.notDict _ => (store, Unwarp.return_empty_values)
  | CtrlArg.dictNoId => (store, Unwarp.return_empty_values)
  | CtrlArg.handle h =>
    let data : Bundle := (store h.id).getD emptyBundle
    if Bundle.isEmpty data then (store, Unwarp.return_empty_values)
    else
      let width := data.width.getD (PyVal.int 1024)
      let height := data.height.getD (PyVal.int 1024)
      (store,
       [data.model_1, data.model_2, data.image, data.mask, data.clip,
        data.clip_vision, data.vae, data.conditioning_positive,
        data.conditioning_negative, data.latent, data.prompt_positive,
        data.prompt_negative, data.batch_size, data.seed, data.steps_1,
        data.steps_2, data.steps_3, data.cfg,
        some (PyVal.str (coerce_sampler_val
          (data.sampler_name.getD (PyVal.str "euler")))),
        some (PyVal.str (coerce_scheduler_val
          (data.scheduler.getD (PyVal.str "karras")))),
        some width, some height])

/-- Spec-side reading of the bundle node's input handling, for comparison
with `Warp.warp`: the fields copied from the prior bundle — those stored
under `prev_id` when an existing handle `{"id": prev_id}` is supplied
(empty if `prev_id` is absent from the store), and empty when no handle
is supplied. -/
def specPrevBundle (store : Store) (warp : CtrlArg) : Bundle :=
  match warp with
  | CtrlArg.handle h => (store h.id).getD emptyBundle
  | _ => emptyBundle

/-- Spec-side reading of the overlay, for comparison with `Warp.warp`:
the copied fields overlaid with exactly those of the 22 named inputs
that were supplied non-None values — a supplied input replaces the
copied field (with `sampler_name` and `scheduler` stored after
`coerce_sampler` / `coerce_scheduler`), an absent (None) input does not
overwrite it. -/
def specOverlayBundle (prev : Bundle) (i : WarpInputs) : Bundle :=
  { image := if i.image.isSome then i.image else prev.image
    mask := if i.mask.isSome then i.mask else prev.mask
    model_1 := if i.model_1.isSome then i.model_1 else prev.model_1
    model_2 := if i.model_2.isSome then i.model_2 else prev.model_2
    clip := if i.clip.isSome then i.clip else prev.clip
    clip_vision := if i.clip_vision.isSome then i.clip_vision else prev.clip_vision
    vae := if i.vae.isSome then i.vae else prev.vae
    conditioning_positive :=
      if i.conditioning_positive.isSome then i.conditioning_positive
      else prev.conditioning_positive
    conditioning_negative :=
      if i.conditioning_negative.isSome then i.conditioning_negative
      else prev.conditioning_negative
    latent := if i.latent.isSome then i.latent else prev.latent
    prompt_positive :=
      if i.prompt_positive.isSome then i.prompt_positive else prev.prompt_positive
    prompt_negative :=
      if i.prompt_negative.isSome then i.prompt_negative else prev.prompt_negative
    batch_size := if i.batch_size.isSome then i.batch_size else prev.batch_size
    seed := if i.seed.isSome then i.seed else prev.seed
    steps_1 := if i.steps_1.isSome then i.steps_1 else prev.steps_1
    steps_2 := if i.steps_2.isSome then i.steps_2 else prev.steps_2
    steps_3 := if i.steps_3.isSome then i.steps_3 else prev.steps_3
    cfg := if i.cfg.isSome then i.cfg else prev.cfg
    sampler_name :=
      if i.sampler_name.isSome then
        i.sampler_name.map (fun s => PyVal.str (coerce_sampler s))
      else prev.sampler_name
    scheduler :=
      if i.scheduler.isSome then
        i.scheduler.map (fun s => PyVal.str (coerce_scheduler s))
      else prev.scheduler
    width := if i.width.isSome then i.width else prev.width
    height := if i.height.isSome then i.height else prev.height }

/-- A sample stored bundle holding a single field (`seed = 5`). -/
def seedBundle : Bundle :=
  { emptyBundle with seed := some (PyVal.int 5) }

/-- A sample store with the single entry `"a" : seedBundle`. -/
def seedStore : Store :=
  fun k => if k = "a" then some seedBundle else none

/-!
Machinery for `WarpProvider.provide` (warp_pipe.py lines 483-554).

`parse_size_preset` runs Python regex searches over the preset string.
In the source file the separator between width and height is the literal
two-character sequence U+221A U+00F3 (it appears identically in the
preset strings and in the first pattern, so the two stay consistent),
with an ASCII `x` fallback pattern matched case-insensitively.  Both
patterns have the shape `(\d+)\s*SEP\s*(\d+)`.  Because the digit class,
the whitespace class and the separator characters are pairwise disjoint,
a match attempt at a given start position is equivalent to
maximal-munch: a nonempty maximal digit run, a maximal whitespace run,
the separator literal, a maximal whitespace run, a nonempty digit run —
so the scanner below reproduces `re.search`'s leftmost-match semantics
by trying successive start positions.  `\d` and `\s` are modelled by
`Char.isDigit` and `Char.isWhitespace` (the preset strings involved
contain only ASCII digits and plain spaces).
-/

/-- Consume an exact literal character sequence from the front of the
input, returning the rest, or `none` when it does not start there. -/
def dropLiteral : List Char → List Char → Option (List Char)
  | [], cs => some cs
  | _ :: _, [] => none
  | l :: ls, c :: cs => if c = l then dropLiteral ls cs else none

/-- Consume one of the alternative separator literals (first one that
fits, matching `re.IGNORECASE` by listing both cases). -/
def dropSep : List (List Char) → List Char → Option (List Char)
  | [], _ => none
  | a :: rest, cs =>
    match dropLiteral a cs with
    | some r => some r
    | none => dropSep rest cs

/-- Decimal value of a digit run, as `int()` of the matched group. -/
def digitsToNat (ds : List Char) : Nat :=
  ds.foldl (fun n c => 10 * n + (c.toNat - 48)) 0

/-- One match attempt of `(\d+)\s*SEP\s*(\d+)` anchored at the head of
`cs` (maximal-munch, see the module comment above). -/
def matchPairAt (seps : List (List Char)) (cs : List Char) :
    Option (Nat × Nat) :=
  let d1 := cs.takeWhile Char.isDigit
  if d1.isEmpty then none
  else
    let rest1 := (cs.dropWhile Char.isDigit).dropWhile Char.isWhitespace
    match dropSep seps rest1 with
    | none => none
    | some rest2 =>
      let rest3 := rest2.dropWhile Char.isWhitespace
      let d2 := rest3.takeWhile Char.isDigit
      if d2.isEmpty then none
      else some (digitsToNat d1, digitsToNat d2)

/-- `re.search` of `(\d+)\s*SEP\s*(\d+)`: try each start position from
the left, returning the first (leftmost) match. -/
def searchPair (seps : List (List Char)) : List Char → Option (Nat × Nat)
  | [] => none
  | c :: cs =>
    match matchPairAt seps (c :: cs) with
    | some r => some r
    | none => searchPair seps cs

/-- The separator literal of the first pattern (warp_pipe.py line 517):
the two-character sequence U+221A U+00F3 as it appears in the source. -/
def timesSeps : List (List Char) := [['√', 'ó']]

/-- The separator alternatives of the fallback pattern
(warp_pipe.py line 522): ASCII `x`, case-insensitive. -/
def xSeps : List (List Char) := [['x'], ['X']]

/-- parse_size_preset (warp_pipe.py lines 509-527): first pattern, then
the `x` fallback, then the final fallback `(1024, 1024)`. -/
def parse_size_preset (preset : String) : Int × Int :=
  match searchPair timesSeps preset.data with
  | some (w, h) => ((w : Int), (h : Int))
  | none =>
    match searchPair xSeps preset.data with
    | some (w, h) => ((w : Int), (h : Int))
    | none => (1024, 1024)

/-- A torch tensor as far as this module builds one: a shape and the
entry at each index.  `torch.zeros(shape)` is the all-zero tensor of
that shape. -/
structure Tensor where
  shape : List Int
  entry : List Int → Int

/-- torch.zeros (as called at warp_pipe.py line 506). -/
def torch_zeros (shape : List Int) : Tensor :=
  { shape := shape, entry := fun _ => 0 }

/-- A latent dict `{"samples": tensor}`. -/
structure Latent where
  samples : Tensor

/-- create_empty_latent (warp_pipe.py lines 500-507):
`torch.zeros([batch_size, 4, height // 8, width // 8])` wrapped as
`{"samples": ...}`.  Python `//` is floor division, `Int.fdiv`. -/
def create_empty_latent (width height batch_size : Int) : Latent :=
  let latent_width := Int.fdiv width 8
  let latent_height := Int.fdiv height 8
  { samples := torch_zeros [batch_size, 4, latent_height, latent_width] }

/-- The 11-element return tuple of `WarpProvider.provide`
(warp_pipe.py lines 542-554), by RETURN_NAMES.  `cfg` is a float the
module only passes through, kept opaque as a `PyVal`. -/
structure ProvideOut where
  latent : Latent
  batch_size : Int
  seed : Int
  steps_1 : Int
  steps_2 : Int
  steps_3 : Int
  cfg : PyVal
  sampler_name : String
  scheduler : String
  width : Int
  height : Int

/-- WarpProvider.provide (warp_pipe.py lines 483-554): width and height
come from `(custom_width, custom_height)` when `size_preset == "Custom"`
and from `parse_size_preset(size_preset)` otherwise; the latent is the
empty latent for those dimensions and the batch size; the seed is passed
through; `sampler_name` and `scheduler` are coerced. -/
def WarpProvider.provide (batch_size seed steps_1 steps_2 steps_3 : Int)
    (cfg : PyVal) (sampler_name scheduler size_preset : String)
    (custom_width custom_height : Int) : ProvideOut :=
  let wh : Int × Int :=
    if size_preset = "Custom" then (custom_width, custom_height)
    else parse_size_preset size_preset
  { latent := create_empty_latent wh.1 wh.2 batch_size
    batch_size := batch_size
    seed := seed
    steps_1 := steps_1
    steps_2 := steps_2
    steps_3 := steps_3
    cfg := cfg
    sampler_name := coerce_sampler sampler_name
    scheduler := coerce_scheduler scheduler
    width := wh.1
    height := wh.2 }

/-- FDSchedulerAdapter.adapt (warp_pipe.py lines 574-575): the node
returns the 1-tuple `(coerce_scheduler_fd(scheduler),)`, embedded as a
singleton list. -/
def FDSchedulerAdapter.adapt (scheduler : String) : List String :=
  [coerce_scheduler_fd scheduler]

/-- One access to the shared `warp_storage` dictionary, tagged with
whether `_storage_lock` is held at that point. -/
inductive StorageAccess where
  | read : Bool → StorageAccess
  | write : Bool → StorageAccess
deriving DecidableEq, Repr

/-- Whether the lock is held during the access. -/
def StorageAccess.isLocked : StorageAccess → Bool
  | StorageAccess.read locked => locked
  | StorageAccess.write locked => locked

/-- The accesses `Warp.warp` performs on `warp_storage`, in source
order: when a dict with an `"id"` key is supplied, the read
`warp_storage.get(prev_id, {})` at warp_pipe.py line 229, which sits
outside any `with _storage_lock` block; then, in every call, the write
`warp_storage[self._warp_id] = data` at line 271, inside
`with _storage_lock` (line 270). -/
def Warp.warpStorageAccesses (warp : CtrlArg) : List StorageAccess :=
  match warp with
  | CtrlArg.handle _ => [StorageAccess.read false, StorageAccess.write true]
  | _ => [StorageAccess.write true]

/-- The accesses `Unwarp.unwarp` performs on `warp_storage`: on the
early-return paths none at all; otherwise the single read
`warp_storage.get(warp_id, {})` at warp_pipe.py line 357, inside
`with _storage_lock` (line 356). -/
def Unwarp.unwarpStorageAccesses (warp : CtrlArg) : List StorageAccess :=
  match warp with
  | CtrlArg.handle _ => [StorageAccess.read true]
  | _ => []

/-- First of two successive calls on one `Warp` instance whose
`_warp_id` is `"w"`: no prior handle, input `seed = 1`. -/
def firstCall : Store × Handle :=
  Warp.warp emptyStore "w" CtrlArg.none
    { noInputs with seed := some (PyVal.int 1) }

/-- Second call on the same instance, feeding the handle returned by the
first call back in, input `seed = 2`. -/
def secondCall : Store × Handle :=
  Warp.warp firstCall.1 "w" (CtrlArg.handle firstCall.2)
    { noInputs with seed := some (PyVal.int 2) }

theorem scheduler_alias_lookup_getD (name : String) :
    (SCHEDULER_ALIASES.lookup name).getD "karras" = "karras" := by
  simp only [SCHEDULER_ALIASES, List.lookup]
  repeat' split
  all_goals rfl

theorem scheduler_alias_values (name a : String)
    (h : SCHEDULER_ALIASES.lookup name = some a) : a = "karras" := by
  simp only [SCHEDULER_ALIASES, List.lookup] at h
  repeat' split at h
  all_goals simp_all

theorem coerce_scheduler_mem (name : String) :
    coerce_scheduler name ∈ SAFE_SCHEDULERS := by
  unfold coerce_scheduler
  split
  · assumption
  · rw [scheduler_alias_lookup_getD]
    decide

theorem coerce_scheduler_id_of_mem (name : String)
    (h : name ∈ SAFE_SCHEDULERS) : coerce_scheduler name = name := by
  simp [coerce_scheduler, h]

theorem coerce_sampler_mem (name : String) :
    coerce_sampler name ∈ SAFE_SAMPLERS := by
  unfold coerce_sampler
  split
  · assumption
  · decide

theorem coerce_sampler_id_of_mem (name : String)
    (h : name ∈ SAFE_SAMPLERS) : coerce_sampler name = name := by
  simp [coerce_sampler, h]

theorem coerce_scheduler_fd_mem (name : String) :
    coerce_scheduler_fd name ∈ FD_SCHEDULERS := by
  unfold coerce_scheduler_fd
  split
  · assumption
  · split
    · split
      · assumption
      · decide
    · decide

theorem coerce_scheduler_fd_id_of_mem (name : String)
    (h : name ∈ FD_SCHEDULERS) : coerce_scheduler_fd name = name := by
  simp [coerce_scheduler_fd, h]

theorem overlay_eq_ite (new old : Option PyVal) :
    overlay new old = if new.isSome then new else old := by
  cases new <;> rfl

/-- Claim C1: for every call to `Warp.warp`, the bundle stored under the
returned identifier equals a copy of the fields stored under `prev_id`
when an existing handle `{"id": prev_id}` is supplied (empty if
`prev_id` is absent from the store, or if no handle is supplied),
overlaid with exactly those of the 22 named inputs that were supplied
non-None values; absent (None) inputs do not overwrite the copied
fields, and `sampler_name` / `scheduler` are stored after
`coerce_sampler` / `coerce_scheduler`. -/
theorem C1_warp_overlay (store : Store) (wid : String) (w : CtrlArg)
    (i : WarpInputs) :
    (Warp.warp store wid w i).1 ((Warp.warp store wid w i).2.id) =
      some (specOverlayBundle (specPrevBundle store w) i) := by
  cases w <;>
    simp [Warp.warp, specPrevBundle, specOverlayBundle, overlay_eq_ite,
      Option.map_map, Function.comp_def]

/-- Claim C3: `Warp.warp` never mutates a previously issued bundle in
place — every store entry whose key differs from the identifier returned
by the call is exactly the same after the call as before it. -/
theorem C3_warp_frame (store : Store) (wid : String) (w : CtrlArg)
    (i : WarpInputs) (k : String)
    (h : k ≠ (Warp.warp store wid w i).2.id) :
    (Warp.warp store wid w i).1 k = store k := by
  have h2 : k ≠ wid := h
  simp [Warp.warp, h2]

/-- Witness for C3: a store holding `"a"`, a call on an instance with
`_warp_id = "b"`: the entry under `"a"` is untouched. -/
theorem C3_warp_frame_witness :
    ("a" ≠ (Warp.warp seedStore "b" CtrlArg.none noInputs).2.id) ∧
    (Warp.warp seedStore "b" CtrlArg.none noInputs).1 "a" = seedStore "a" :=
  ⟨by decide, C3_warp_frame seedStore "b" CtrlArg.none noInputs "a" (by decide)⟩

/-- Counterexample to claim C4 (every invocation of `Warp.warp` produces
a new identifier): two successive calls on the same instance return the
same identifier, and the second call rebinds the bundle stored under the
handle issued by the first call. -/
theorem C4_counterexample :
    secondCall.2 = firstCall.2 ∧
    secondCall.1 firstCall.2.id ≠ firstCall.1 firstCall.2.id := by decide

/-- Claim C4 as amended: `Warp.warp` always returns the handle carrying
the instance's fixed `_warp_id` (generated once in `__init__`), so two
calls return distinct identifiers exactly when they run on instances
with distinct `_warp_id` values; calls on the same instance reuse the
same identifier. -/
theorem C4_amended_fixed_instance_id (store1 store2 : Store)
    (wid1 wid2 : String) (w1 w2 : CtrlArg) (i1 i2 : WarpInputs) :
    (Warp.warp store1 wid1 w1 i1).2 = { id := wid1 } ∧
    ((Warp.warp store1 wid1 w1 i1).2.id = (Warp.warp store2 wid2 w2 i2).2.id ↔
      wid1 = wid2) :=
  ⟨rfl, Iff.rfl⟩

/-- Counterexample to claim C2 (every absent field is substituted with
the neutral default None): for the stored bundle holding only
`seed = 5`, the `width` field is absent yet the `width` output (position
20 of the tuple) is `1024`, not None — and likewise the `sampler_name`
and `scheduler` outputs (positions 18, 19) are `"euler"` and `"karras"`. -/
theorem C2_counterexample :
    seedBundle.width = none ∧ seedBundle.sampler_name = none ∧
    (Unwarp.unwarp seedStore (CtrlArg.handle { id := "a" })).2[20]? =
      some (some (PyVal.int 1024)) ∧
    (Unwarp.unwarp seedStore (CtrlArg.handle { id := "a" })).2[18]? =
      some (some (PyVal.str "euler")) := by decide

/-- Claim C2 as amended: for every identifier present in the store with
a non-empty field mapping, `Unwarp.unwarp` returns the full fixed-order
22-element tuple of named outputs, substituting absent fields with None
for the first 18 outputs, while the `sampler_name` and `scheduler`
outputs are the stored values passed through `coerce_sampler` /
`coerce_scheduler` (defaulting to `"euler"` / `"karras"` when absent)
and the `width` and `height` outputs default to `1024` when absent; the
store is left unchanged. -/
theorem C2_amended_unwarp (store : Store) (hdl : Handle) (b : Bundle)
    (hb : store hdl.id = some b) (hne : Bundle.isEmpty b = false) :
    Unwarp.unwarp store (CtrlArg.handle hdl) =
      (store,
       [b.model_1, b.model_2, b.image, b.mask, b.clip, b.clip_vision,
        b.vae, b.conditioning_positive, b.conditioning_negative, b.latent,
        b.prompt_positive, b.prompt_negative, b.batch_size, b.seed,
        b.steps_1, b.steps_2, b.steps_3, b.cfg,
        some (PyVal.str (coerce_sampler_val
          (b.sampler_name.getD (PyVal.str "euler")))),
        some (PyVal.str (coerce_scheduler_val
          (b.scheduler.getD (PyVal.str "karras")))),
        some (b.width.getD (PyVal.int 1024)),
        some (b.height.getD (PyVal.int 1024))]) := by
  simp [Unwarp.unwarp, hb, hne]

/-- Witness for the amended C2 at the concrete store holding only
`seed = 5` under `"a"`. -/
theorem C2_amended_unwarp_witness :
    seedStore "a" = some seedBundle ∧
    Bundle.isEmpty seedBundle = false ∧
    Unwarp.unwarp seedStore (CtrlArg.handle { id := "a" }) =
      (seedStore,
       [none, none, none, none, none, none, none, none, none, none,
        none, none, none, some (PyVal.int 5), none, none, none, none,
        some (PyVal.str "euler"), some (PyVal.str "karras"),
        some (PyVal.int 1024), some (PyVal.int 1024)]) :=
  ⟨by decide, by decide,
   by exact C2_amended_unwarp seedStore { id := "a" } seedBundle rfl rfl⟩

/-- Claim C5: on every bad input — the argument is None, is not a dict,
lacks an `"id"` key, or carries an id absent from the store or mapped to
an empty field mapping — `Unwarp.unwarp` raises nothing and returns a
tuple of exactly `len(RETURN_TYPES) = 22` elements, all None, leaving
the store unchanged. -/
theorem C5_unwarp_bad_input (store : Store) (w : CtrlArg)
    (h : match w with
         | CtrlArg.handle hd =>
             Bundle.isEmpty ((store hd.id).getD emptyBundle) = true
         | _ => True) :
    Unwarp.unwarp store w =
      (store, List.replicate Unwarp.RETURN_TYPES.length none) ∧
    Unwarp.RETURN_TYPES.length = 22 := by
  refine ⟨?_, rfl⟩
  cases w with
  | handle hd => simp [Unwarp.unwarp, Unwarp.return_empty_values, h]
  | none => rfl
  | notDict v => rfl
  | dictNoId => rfl

/-- Witness for C5: an id absent from the concrete store. -/
theorem C5_unwarp_bad_input_witness :
    Bundle.isEmpty ((seedStore "missing").getD emptyBundle) = true ∧
    (Unwarp.unwarp seedStore (CtrlArg.handle { id := "missing" }) =
      (seedStore, List.replicate Unwarp.RETURN_TYPES.length none) ∧
     Unwarp.RETURN_TYPES.length = 22) :=
  ⟨by decide,
   C5_unwarp_bad_input seedStore (CtrlArg.handle { id := "missing" })
     (by decide)⟩

/-- Claim C6: `coerce_scheduler` returns a name in SAFE_SCHEDULERS
unchanged, otherwise the static alias-table entry when one exists,
otherwise the safe fallback `"karras"`; the result always lies in
SAFE_SCHEDULERS (the value set accepted by the host's validation layer);
and the coercion is applied both when a bundle is produced (the
`scheduler` field `Warp.warp` stores) and when one is consumed (the
`scheduler` output of `Unwarp.unwarp`, position 19 of the tuple). -/
theorem C6_coerce_scheduler (name wid : String) (store : Store)
    (w : CtrlArg) (i : WarpInputs) (b : Bundle) (hdl : Handle) :
    coerce_scheduler name =
      (if name ∈ SAFE_SCHEDULERS then name
       else (SCHEDULER_ALIASES.lookup name).getD "karras") ∧
    coerce_scheduler name ∈ SAFE_SCHEDULERS ∧
    ((Warp.warp store wid w { i with scheduler := some name }).1 wid).map
        Bundle.scheduler =
      some (some (PyVal.str (coerce_scheduler name))) ∧
    (Unwarp.unwarp
        (fun k => if k = hdl.id then
            some { b with scheduler := some (PyVal.str name) }
          else store k)
        (CtrlArg.handle hdl)).2[19]? =
      some (some (PyVal.str (coerce_scheduler name))) := by
  refine ⟨rfl, coerce_scheduler_mem name, ?_, ?_⟩
  · simp [Warp.warp, overlay]
  · have hne :
        Bundle.isEmpty { b with scheduler := some (PyVal.str name) } = false := by
      simp [Bundle.isEmpty]
    simp [Unwarp.unwarp, hne, coerce_scheduler_val]

/-- Claim C7: `WarpProvider.provide` returns the latent
`{"samples": t}` with `t` the all-zeros tensor of shape
`[batch_size, 4, height // 8, width // 8]`, where `(width, height)` is
`(custom_width, custom_height)` exactly when the preset is `"Custom"`
and otherwise the result of parsing the preset — the first
width-separator-height pair under the source's primary pattern, else the
first `number x number` pair, else `(1024, 1024)` — and the `width` and
`height` outputs equal these same values. -/
theorem C7_provider (batch_size seed steps_1 steps_2 steps_3 : Int)
    (cfg : PyVal) (sampler_name scheduler size_preset : String)
    (custom_width custom_height : Int) :
    (WarpProvider.provide batch_size seed steps_1 steps_2 steps_3 cfg
        sampler_name scheduler size_preset custom_width
        custom_height).latent.samples.shape =
      [batch_size, 4,
       Int.fdiv (if size_preset = "Custom" then (custom_width, custom_height)
                 else parse_size_preset size_preset).2 8,
       Int.fdiv (if size_preset = "Custom" then (custom_width, custom_height)
                 else parse_size_preset size_preset).1 8] ∧
    (∀ ix : List Int,
      (WarpProvider.provide batch_size seed steps_1 steps_2 steps_3 cfg
          sampler_name scheduler size_preset custom_width
          custom_height).latent.samples.entry ix = 0) ∧
    (WarpProvider.provide batch_size seed steps_1 steps_2 steps_3 cfg
        sampler_name scheduler size_preset custom_width
        custom_height).width =
      (if size_preset = "Custom" then (custom_width, custom_height)
       else parse_size_preset size_preset).1 ∧
    (WarpProvider.provide batch_size seed steps_1 steps_2 steps_3 cfg
        sampler_name scheduler size_preset custom_width
        custom_height).height =
      (if size_preset = "Custom" then (custom_width, custom_height)
       else parse_size_preset size_preset).2 ∧
    parse_size_preset size_preset =
      (match (searchPair timesSeps size_preset.data).orElse
          (fun _ => searchPair xSeps size_preset.data) with
       | some (w, h) => ((w : Int), (h : Int))
       | none => (1024, 1024)) := by
  refine ⟨rfl, fun ix => rfl, rfl, rfl, ?_⟩
  unfold parse_size_preset
  cases h1 : searchPair timesSeps size_preset.data with
  | some p => cases p with
    | mk w h => simp [Option.orElse]
  | none =>
    cases h2 : searchPair xSeps size_preset.data with
    | some q => cases q with
      | mk w h => simp [Option.orElse]
    | none => simp [Option.orElse]

/-- Counterexample to claim C8 (every read and write of `warp_storage`
is performed while holding `_storage_lock`): when an existing handle is
supplied, `Warp.warp` performs the read `warp_storage.get(prev_id, {})`
(warp_pipe.py line 229) outside any `with _storage_lock` block. -/
theorem C8_counterexample :
    StorageAccess.read false ∈
      Warp.warpStorageAccesses (CtrlArg.handle { id := "a" }) ∧
    StorageAccess.isLocked (StorageAccess.read false) = false := by decide

/-- Claim C8 as amended: every storage access of `Unwarp.unwarp` and
every storage write of `Warp.warp` is performed while holding
`_storage_lock`; the only unguarded access is the read of the prior
bundle in `Warp.warp`. -/
theorem C8_amended_lock_discipline (w : CtrlArg) :
    (Unwarp.unwarpStorageAccesses w).all StorageAccess.isLocked = true ∧
    (Warp.warpStorageAccesses w).all
      (fun a => match a with
                | StorageAccess.write locked => locked
                | StorageAccess.read _ => true) = true ∧
    (Warp.warpStorageAccesses w).filter
      (fun a => !(StorageAccess.isLocked a)) ⊆ [StorageAccess.read false] := by
  cases w with
  | handle h => exact ⟨rfl, rfl, List.Subset.refl [StorageAccess.read false]⟩
  | none => exact ⟨rfl, rfl, List.nil_subset _⟩
  | notDict v => exact ⟨rfl, rfl, List.nil_subset _⟩
  | dictNoId => exact ⟨rfl, rfl, List.nil_subset _⟩

/-- Claim C9: `coerce_scheduler_fd` always lands inside FD_SCHEDULERS,
is the identity on every member of FD_SCHEDULERS, and
`FDSchedulerAdapter.adapt` emits exactly the 1-tuple holding the coerced
value — so the adapter always emits a scheduler FaceDetailer accepts. -/
theorem C9_fd_coercion (name : String) :
    coerce_scheduler_fd name ∈ FD_SCHEDULERS ∧
    (∀ j : Fin FD_SCHEDULERS.length,
      coerce_scheduler_fd (FD_SCHEDULERS.get j) = FD_SCHEDULERS.get j) ∧
    FDSchedulerAdapter.adapt name = [coerce_scheduler_fd name] := by
  refine ⟨coerce_scheduler_fd_mem name, ?_, rfl⟩
  intro j
  exact coerce_scheduler_fd_id_of_mem _ (List.get_mem FD_SCHEDULERS j.1 j.2)

/-- Claim C10: the three coercion functions are idempotent, so applying
the coercion when a bundle is produced and again when it is consumed
never changes the value a second time. -/
theorem C10_coercions_idempotent (name : String) :
    coerce_sampler (coerce_sampler name) = coerce_sampler name ∧
    coerce_scheduler (coerce_scheduler name) = coerce_scheduler name ∧
    coerce_scheduler_fd (coerce_scheduler_fd name) =
      coerce_scheduler_fd name :=
  ⟨coerce_sampler_id_of_mem _ (coerce_sampler_mem name),
   coerce_scheduler_id_of_mem _ (coerce_scheduler_mem name),
   coerce_scheduler_fd_id_of_mem _ (coerce_scheduler_fd_mem name)⟩
